import Mathlib

/-!
Verification of the ai-flow-tg-news-channel pipeline orchestrator.

Shallow embedding of the Python sources:
  * `src/main.py`                    — `process_article`, `run_pipeline`,
                                       `handle_approval`, `_run_ru_pipeline`
  * `src/utils/notion_client.py`     — durable-store adapter (`url_exists`,
                                       `create_article_page`, `update_page_status`,
                                       `get_article_data`, `get_recent_articles`)
  * `src/nodes/*.py`                 — stage functions

External I/O (OpenRouter generations, Telegram sends, HTTP fetches, the Notion
HTTP transport) is modelled by environment records: each outbound call's result
is an input of the embedded function, with `Res.err` standing for a raised
exception where the Python code can observe one.  The durable store and the
process-local `pending_posts` dict are association lists threaded explicitly.
-/

namespace AiFlow

/-- `Status` of a Notion record.  The Python code compares plain strings;
`"Sent for approval"`, `"Posted"` and `"Declined"` are the three values the
code ever writes, `unknown` stands for any other string (the
`get_article_data` default `"Unknown"` included). -/
inductive Status where
  | sentForApproval
  | posted
  | declined
  | unknown
deriving DecidableEq, Repr

/-- Terminal statuses: `handle_approval` short-circuits on `"Posted"` and
`"Declined"` (src/main.py lines 184-190). -/
def Status.isTerminal : Status → Bool
  | .posted => true
  | .declined => true
  | _ => false

/-- The `creative_type` strings `"video" | "image" | "none"` used across
`find_creative.py`, `post_to_telegram.py` and `main.py`. -/
inductive CreativeType where
  | video
  | image
  | none
deriving DecidableEq, Repr

/-- Outcome of a fallible external call: `ok v` is a normal return, `err`
is a raised exception. -/
inductive Res (α : Type) where
  | ok (val : α)
  | err
deriving DecidableEq, Repr

/-- The two decision actions carried in the callback data
(`"approve:UUID"` / `"decline:UUID"`). -/
inductive Action where
  | approve
  | decline
deriving DecidableEq, Repr

/-! ### Association-list primitives

The Notion database (pages keyed by page id) and the process-local
`pending_posts` dict are modelled as association lists; lookup finds the
most recent binding, as a dict assignment overrides. -/

/-- Dict lookup by key. -/
def lookupId {α : Type} : List (String × α) → String → Option α
  | [], _ => none
  | (k, v) :: rest, pid => if k = pid then some v else lookupId rest pid

/-- Dict deletion (`if page_id in pending_posts: del pending_posts[page_id]`). -/
def removeKey {α : Type} : List (String × α) → String → List (String × α)
  | [], _ => []
  | (k, v) :: rest, pid =>
      if k = pid then removeKey rest pid else (k, v) :: removeKey rest pid

theorem lookupId_removeKey {α : Type} (l : List (String × α)) (pid : String) :
    lookupId (removeKey l pid) pid = none := by
  induction l with
  | nil => rfl
  | cons kv rest ih =>
      obtain ⟨k, v⟩ := kv
      by_cases h : k = pid
      · simp [removeKey, h, ih]
      · simp [removeKey, lookupId, h, ih]

theorem lookupId_removeKey_ne {α : Type} (l : List (String × α)) (pid k : String)
    (h : k ≠ pid) : lookupId (removeKey l pid) k = lookupId l k := by
  induction l with
  | nil => rfl
  | cons kv rest ih =>
      obtain ⟨k', v⟩ := kv
      by_cases hk : k' = pid
      · subst hk
        simp [removeKey, lookupId, Ne.symm h, ih]
      · by_cases hk2 : k' = k <;> simp [removeKey, lookupId, hk, hk2, h, ih]

/-- Update every binding of key `pid` (a Notion page id is unique, so this is
the single page update; `notion.pages.update` on a missing page raises, the
wrapper catches and leaves the store unchanged, which `updateRecord` on a
missing key also does). -/
def updateRecord {α : Type} : List (String × α) → String → (α → α) → List (String × α)
  | [], _, _ => []
  | (k, v) :: rest, pid, f =>
      if k = pid then (k, f v) :: updateRecord rest pid f
      else (k, v) :: updateRecord rest pid f

theorem lookupId_updateRecord {α : Type} (l : List (String × α)) (pid : String)
    (f : α → α) : lookupId (updateRecord l pid f) pid = (lookupId l pid).map f := by
  induction l with
  | nil => rfl
  | cons kv rest ih =>
      obtain ⟨k, v⟩ := kv
      by_cases h : k = pid <;> simp [updateRecord, lookupId, h, ih]

/-! ### Durable store records (`src/utils/notion_client.py`) -/

/-- Python string slice `s[:n]`: the first `n` characters. -/
def pyTake (n : Nat) (s : String) : String := String.mk (s.toList.take n)

/-- Python `s.lower()` (character-wise; the inputs here are URLs, ASCII). -/
def pyLower (s : String) : String := String.mk (s.toList.map Char.toLower)

/-- Python `s.endswith(suffix)`. -/
def pyEndsWith (s suffix : String) : Bool := suffix.toList.isSuffixOf s.toList

/-- The whitespace characters Python `str.strip()` removes (ASCII range). -/
def isPySpace (c : Char) : Bool :=
  c = ' ' ∨ c = '\t' ∨ c = '\n' ∨ c = '\r' ∨ c = '\x0b' ∨ c = '\x0c'

/-- Python `s.strip()`. -/
def pyStrip (s : String) : String :=
  String.mk (((s.toList.dropWhile isPySpace).reverse.dropWhile isPySpace).reverse)

/-- One row of the Notion database, with the properties the code reads and
writes: `{Title, Source URL, Post text, Why relevant, Creative url, Status}`
plus the `post_url` rich-text field set by `mark_posted`.  `creative_url` is
`Option` because `create_article_page` only sets the property when the
creative is a real URL. -/
structure Record where
  title : String
  article_url : String
  post_text : String
  why_relevant : String
  creative_url : Option String
  status : Status
  post_url : String
deriving DecidableEq, Repr

/-- The record written by `create_article_page` (notion_client.py lines
93-130): post text and relevance justification are truncated to their first
2000 characters, status starts at `"Sent for approval"`, and the
`Creative url` property is only set for a non-empty reference different from
the `"none"` sentinel. -/
def create_article_page (title article_url creative_url post_text why_relevant : String) :
    Record :=
  { title := title
    article_url := article_url
    post_text := pyTake 2000 post_text
    why_relevant := pyTake 2000 why_relevant
    creative_url := if creative_url ≠ "" ∧ creative_url ≠ "none" then some creative_url else none
    status := .sentForApproval
    post_url := "" }

/-- `update_page_status` (notion_client.py lines 133-151): sets the status
and, only when `post_url` is non-empty, the `post_url` property.  The whole
body is in `try/except`: when the Notion update raises (`ok = false`) the
exception is caught, `False` is returned and the store is unchanged —
and `main.py` ignores that return value. -/
def update_page_status (ok : Bool) (store : List (String × Record))
    (pid : String) (status : Status) (post_url : String) :
    List (String × Record) :=
  if ok then
    updateRecord store pid fun r =>
      { r with
        status := status
        post_url := if post_url = "" then r.post_url else post_url }
  else store

/-- The creative reference `get_article_data` reports: the stored property,
or the `"none"` sentinel when the property is absent (notion_client.py lines
174-177). -/
def storedCreative (r : Record) : String := r.creative_url.getD "none"

/-- `url_exists` (notion_client.py lines 19-32): query the database for a
row whose `Source URL` equals the given URL.  The query is in `try/except`:
when it raises (`queryOk = false`) the wrapper catches, logs and returns
`False` — the check fails open. -/
def url_exists (queryOk : Bool) (store : List (String × Record))
    (article_url : String) : Bool :=
  if queryOk then store.any fun kv => kv.2.article_url = article_url
  else false

/-! ### The article dict and the pending-decision data -/

/-- The article dict flowing through the pipeline (`fetch_rss` output plus
fields accreted by stages).  `images`/`videos` are kept as URL lists; their
contents only feed `find_creative`, an external adapter in this model. -/
structure Article where
  article_text : String
  article_title : String
  article_url : String
  article_date : String
  relevance_reason : String
  source : String
  images : List String
  videos : List String
deriving DecidableEq, Repr

/-- The `article_data` dict of the approval flow: the fields the decision
handler, the preview sender, the main-channel publisher and the RU
sub-pipeline read.  `title` holds Python's
`article_data.get("article_title", article_data.get("title", "Unknown"))`
(the in-memory dict carries `article_title`, the dict rebuilt by
`get_article_data` carries `title`).  `pageId` is `notion_page_id`. -/
structure ArticleData where
  post_text : String
  creative_type : CreativeType
  creative_url : String
  title : String
  pageId : Option String
deriving DecidableEq, Repr

/-- The mutable state the orchestrator and the approval gate share: the
Notion database and the process-local `pending_posts` dict
(post_to_telegram.py line 23). -/
structure State where
  store : List (String × Record)
  pending : List (String × ArticleData)
deriving DecidableEq, Repr

/-- Status of the record with the given page id. -/
def statusAt (st : State) (pid : String) : Option Status :=
  (lookupId st.store pid).map Record.status

/-- Reachability invariant of the system: a page id held in the
process-local `pending_posts` dict always refers to a non-terminal durable
record.  `send_preview` inserts the id together with a fresh
`"Sent for approval"` record, and both terminal transitions of
`handle_approval` delete the id from the dict. -/
def StateInv (st : State) : Prop :=
  ∀ pid ad, lookupId st.pending pid = some ad →
    ∀ r, lookupId st.store pid = some r → r.status.isTerminal = false

/-! ### Stage functions (`src/nodes/*.py`)

Each node wraps its OpenRouter call in `try/except`; the call's outcome is
an environment input (`Res.err` = the call raised). -/

/-- The parsed JSON of the summarizer generation, with the `get` defaults
`"SKIP"` applied by the caller. -/
structure SummOut where
  article_title : String
  article_text : String
deriving DecidableEq, Repr

/-- `summarizer.execute` (summarizer.py lines 54-91): on `"SKIP"` in either
field or on a raised generation call, the article is dropped; otherwise the
title and text fields are overwritten on the same dict. -/
def summarizer (res : Res SummOut) (a : Article) : Option Article :=
  match res with
  | .err => none
  | .ok out =>
      if out.article_title = "SKIP" ∨ out.article_text = "SKIP" then none
      else some { a with article_title := out.article_title,
                         article_text := out.article_text }

/-- The parsed JSON of the relevance generation (`is_relevant` defaulting to
`False`, `reason` to `"No reason provided"`). -/
structure RelOut where
  is_relevant : Bool
  reason : String
deriving DecidableEq, Repr

/-- `relevance_checker.execute` (relevance_checker.py lines 56-92). -/
def relevance_checker (res : Res RelOut) (a : Article) : Option Article :=
  match res with
  | .err => none
  | .ok out =>
      if out.is_relevant then some { a with relevance_reason := out.reason }
      else none

/-- A row of `get_recent_articles` (notion_client.py lines 35-87). -/
structure RecentPost where
  title : String
  source_url : String
  post_text : String
deriving DecidableEq, Repr

/-- The parsed JSON of the duplicate-detector generation. -/
structure DupJudgment where
  is_duplicate : Bool
  duplicate_of : String
  reason : String
deriving DecidableEq, Repr

/-- Adapter outcomes inside the duplicate filter: whether the layer-1
URL-existence query completes, and the results of the recent-window
durable-store query and of the generation call. -/
structure DedupEnv where
  urlQueryOk : Bool
  recentRes : Res (List RecentPost)
  aiRes : Res DupJudgment
deriving DecidableEq, Repr

/-- `get_recent_articles` catches its own exceptions and returns `[]`
(notion_client.py lines 85-87). -/
def get_recent_articles (res : Res (List RecentPost)) : List RecentPost :=
  match res with
  | .ok l => l
  | .err => []

/-- `duplicate_control.execute` (duplicate_control.py lines 58-116):
layer 1 is the exact-URL existence check, layer 2 the semantic comparison;
the whole body sits in `try/except` and any raised adapter call returns the
article unchanged (fail-open). -/
def duplicate_control (env : DedupEnv) (store : List (String × Record))
    (a : Article) : Option Article :=
  if url_exists env.urlQueryOk store a.article_url then none
  else
    let recent := get_recent_articles env.recentRes
    if recent.isEmpty then some a
    else
      match env.aiRes with
      | .err => some a
      | .ok j => if j.is_duplicate then none else some a

/-- `post_writer.execute` (post_writer.py lines 163-197): the generation
returns raw text; empty/short output (stripped length below 50) or a raised
call yields `None`, otherwise the stripped text. -/
def post_writer (res : Res String) : Option String :=
  match res with
  | .err => none
  | .ok s => if (pyStrip s).length < 50 then none else some (pyStrip s)

/-- The `{"creative_type", "creative_url"}` dict returned by
`find_creative.execute`; the node never raises (it catches everything and
falls back to `{"none", "none"}`), so the whole node is an adapter input. -/
structure CreativeOut where
  creative_type : CreativeType
  creative_url : String
deriving DecidableEq, Repr

/-! ### Creative-type reinference (`src/main.py` lines 174-181) -/

/-- `c_url.lower().endswith((".mp4", ".mov", ".webm"))`. -/
def hasVideoExt (s : String) : Bool :=
  pyEndsWith (pyLower s) ".mp4" || pyEndsWith (pyLower s) ".mov" ||
    pyEndsWith (pyLower s) ".webm"

/-- The reinference in `handle_approval` (main.py lines 176-181):
```
if c_url and c_url.lower().endswith((".mp4", ".mov", ".webm")):  video
elif c_url and c_url != "none":                                  image
else:                                                            none
```
-/
def inferCreativeType (c_url : String) : CreativeType :=
  if c_url ≠ "" ∧ hasVideoExt c_url then .video
  else if c_url ≠ "" ∧ c_url ≠ "none" then .image
  else .none

/-- The rule as the specification words it (spec §4.2 step 2): a reference
ending in a known video file extension ⇒ video; a non-empty reference not
equal to the `"none"` sentinel ⇒ image; otherwise ⇒ none. -/
def specCreativeRule (c : String) : CreativeType :=
  if hasVideoExt c then .video
  else if c ≠ "" ∧ c ≠ "none" then .image
  else .none

/-- The `article_data` dict `handle_approval` rebuilds from a durable record
when the process-local entry is absent (main.py lines 168-181 together with
`get_article_data`). -/
def recoverArticleData (pid : String) (r : Record) : ArticleData :=
  let c := storedCreative r
  { post_text := r.post_text
    creative_type := inferCreativeType c
    creative_url := c
    title := r.title
    pageId := some pid }

/-! ### The approval gate (`handle_approval`, src/main.py lines 148-234) -/

/-- Adapter outcomes of one decision handling: whether the
`notion.pages.retrieve` call completes, the result of
`post_to_telegram.post_to_main_channel` (`some post_url` on success,
`none` when the send fails or raises — post_to_telegram.py lines 123-187),
and whether the `mark_posted`/`mark_declined` Notion status write lands
(its caught failure is ignored by `main.py`). -/
structure DecideEnv where
  fetchOk : Bool
  publishResult : Option String
  updateOk : Bool
deriving DecidableEq, Repr

/-- What one call of `handle_approval` produces: the new shared state, the
text the reviewer's message is edited to, the calls made to
`post_to_main_channel`, and the RU sub-pipeline tasks spawned. -/
structure DecideResult where
  state : State
  message : Option String
  publishes : List ArticleData
  ruSpawned : List ArticleData
deriving DecidableEq, Repr

def approvedMsg (t : String) : String := s!"✅ Approved & Posted: {t}"
def alreadyPostedMsg (t : String) : String := s!"✅ Already Posted: {t}"
def alreadyDeclinedMsg (t : String) : String := s!"❌ Already Declined: {t}"
def declinedMsg (t : String) : String := s!"❌ Declined: {t}"
def notFoundMsg (p : String) : String := s!"⚠️ Error: Post data not found in Notion ({p})"
def publishErrMsg : String := "⚠️ Error posting to main channel."

/-- The already-terminal notice (main.py lines 185-190). -/
def alreadyMsg (r : Record) : String :=
  if r.status = .posted then alreadyPostedMsg r.title else alreadyDeclinedMsg r.title

/-- The action part of `handle_approval` (main.py lines 192-226), reached
with the `article_data` found in memory or rebuilt from Notion.
On approve: call `post_to_main_channel`; on success call `mark_posted`
(its boolean result — `False` when the Notion write raised — is ignored),
delete the pending entry, edit the admin message and spawn the RU
pipeline; on publish failure edit an error message and change nothing.
On decline: call `mark_declined` (result likewise ignored), delete the
pending entry, edit the admin message.  No publish call happens on
decline. -/
def applyDecision (env : DecideEnv) (st : State) (action : Action) (pid : String)
    (ad : ArticleData) : DecideResult :=
  match action with
  | .approve =>
      match env.publishResult with
      | some post_url =>
          { state :=
              { store := update_page_status env.updateOk st.store pid .posted post_url
                pending := removeKey st.pending pid }
            message := some (approvedMsg ad.title)
            publishes := [ad]
            ruSpawned := [ad] }
      | none =>
          { state := st
            message := some publishErrMsg
            publishes := [ad]
            ruSpawned := [] }
  | .decline =>
      { state :=
          { store := update_page_status env.updateOk st.store pid .declined ""
            pending := removeKey st.pending pid }
        message := some (declinedMsg ad.title)
        publishes := []
        ruSpawned := [] }

/-- `handle_approval` (main.py lines 148-234) for a parsed decision event
`action:pid`: look the id up in `pending_posts`; on a miss fetch the durable
record (`get_article_data`), reinfer the creative type, and short-circuit
with a notice when the record is already terminal; otherwise act. -/
def handle_approval (env : DecideEnv) (st : State) (action : Action)
    (pid : String) : DecideResult :=
  match lookupId st.pending pid with
  | some ad => applyDecision env st action pid ad
  | none =>
      if env.fetchOk then
        match lookupId st.store pid with
        | none =>
            { state := st, message := some (notFoundMsg pid)
              publishes := [], ruSpawned := [] }
        | some r =>
            if r.status.isTerminal then
              { state := st, message := some (alreadyMsg r)
                publishes := [], ruSpawned := [] }
            else applyDecision env st action pid (recoverArticleData pid r)
      else
        { state := st, message := some (notFoundMsg pid)
          publishes := [], ruSpawned := [] }

/-! ### RSS ingestion (`src/nodes/fetch_rss.py`) -/

/-- The `data` dict of a successful AI-parser call. -/
structure ParsedDetail where
  full_text : String
  images : List String
  videos : List String
deriving DecidableEq, Repr

/-- An RSS entry as `_normalize_rss_article` reads it:
`entry.get("link", "")`, `entry.get("content", [{}])[0].get("value", "")`
and `entry.get("summary", "")`. -/
structure RssEntry where
  link : String
  contentValue : String
  summary : String
deriving DecidableEq, Repr

/-- Adapter outcomes of one `_normalize_rss_article` run: whether the
URL-existence query completes, the AI-parser result (`none` covers both a
parser error reply and a raised request, which `_parse_article_detail`
catches) and the Tavily fallback extraction. -/
structure RssEnv where
  urlQueryOk : Bool
  parserResult : Option ParsedDetail
  tavilyText : Option String
  nowDate : String
deriving DecidableEq, Repr

/-- `_normalize_rss_article` (fetch_rss.py lines 77-138): drop entries with
no link, drop URLs already in the durable store, then assemble the article
text from the parser, the Tavily fallback (techcrunch/theverge only) or the
RSS body (marktechpost only). -/
def normalize_rss_article (env : RssEnv) (store : List (String × Record))
    (entry : RssEntry) (source_name : String) : Option Article :=
  if entry.link = "" then none
  else if url_exists env.urlQueryOk store entry.link then none
  else
    let rss_text :=
      if source_name = "marktechpost" then
        if entry.contentValue ≠ "" then entry.contentValue else entry.summary
      else ""
    let (parsed_text, images, videos) :=
      match env.parserResult with
      | some p => (p.full_text, p.images, p.videos)
      | none => ("", ([] : List String), ([] : List String))
    let text1 :=
      if parsed_text = "" ∧ rss_text = "" ∧
          (source_name = "techcrunch" ∨ source_name = "theverge") then
        env.tavilyText.getD ""
      else parsed_text
    let text2 := if text1 = "" ∧ rss_text ≠ "" then rss_text else text1
    if text2 = "" then none
    else some
      { article_text := text2
        article_title := ""
        article_url := entry.link
        article_date := env.nowDate
        relevance_reason := ""
        source := source_name
        images := images
        videos := videos }

/-! ### One article through the pipeline (`process_article`, main.py lines 39-108) -/

/-- Adapter outcomes of one `process_article` run, in stage order.
`fixFn` stands for `fix_html.execute` (a pure HTML sanitizer plus signature
append, not modelled tag by tag); `savedPageId` is the page id Notion
assigns, `none` when `create_article_page` failed (it catches its own
exceptions and returns `None`); `previewOk` is whether the admin-channel
preview sends complete. -/
structure StageEnv where
  summRes : Res SummOut
  relRes : Res RelOut
  dedupEnv : DedupEnv
  writerRes : Res String
  fixFn : String → String
  creativeRes : CreativeOut
  savedPageId : Option String
  previewOk : Bool

/-- Observable per-article effects: durable records created and preview
callbacks now awaiting approval. -/
structure PEffects where
  created : List String
  submitted : List String
deriving DecidableEq, Repr

/-- `process_article` (main.py lines 39-108): run the stage sequence,
stopping at the first drop; on success persist the record, then send the
preview — `pending_posts` is only populated when the preview sends
(post_to_telegram.py line 113), and a failed preview leaves the persisted
record with no pending entry. -/
def process_article (env : StageEnv) (st : State) (a : Article) :
    State × PEffects :=
  match summarizer env.summRes a with
  | none => (st, ⟨[], []⟩)
  | some a1 =>
  match relevance_checker env.relRes a1 with
  | none => (st, ⟨[], []⟩)
  | some a2 =>
  match duplicate_control env.dedupEnv st.store a2 with
  | none => (st, ⟨[], []⟩)
  | some a3 =>
  match post_writer env.writerRes with
  | none => (st, ⟨[], []⟩)
  | some raw =>
  let post_text := env.fixFn raw
  let creative := env.creativeRes
  match env.savedPageId with
  | none => (st, ⟨[], []⟩)
  | some pid =>
      let r := create_article_page a3.article_title a3.article_url
        creative.creative_url post_text a3.relevance_reason
      let ad : ArticleData :=
        { post_text := post_text
          creative_type := creative.creative_type
          creative_url := creative.creative_url
          title := a3.article_title
          pageId := some pid }
      if env.previewOk then
        (⟨(pid, r) :: st.store, (pid, ad) :: st.pending⟩, ⟨[pid], [pid]⟩)
      else
        (⟨(pid, r) :: st.store, st.pending⟩, ⟨[pid], []⟩)

/-! ### The cycle loop (`run_pipeline`, main.py lines 111-142) -/

/-- How one article's processing ends, seen from the per-article `try`:
either `process_article` returned, or it raised and the handler logged and
reported the fault. -/
inductive StepOutcome where
  | done (eff : PEffects)
  | raised (msg : String)
deriving DecidableEq, Repr

/-- The per-article loop of `run_pipeline` (main.py lines 131-136),
parameterised by the behaviour of the `process_article` call: each
iteration's `try/except` records the outcome — a raised fault included —
and moves to the next candidate. -/
def runArticles (step : State → Article → State × StepOutcome) :
    State → List Article → State × List StepOutcome
  | st, [] => (st, [])
  | st, a :: rest =>
      let r := step st a
      let rs := runArticles step r.1 rest
      (rs.1, r.2 :: rs.2)

/-- The actual `process_article` call as a loop step (its embedded form
returns, so its outcome is always `done`). -/
def processStep (env : StageEnv) (st : State) (a : Article) :
    State × StepOutcome :=
  let r := process_article env st a
  (r.1, .done r.2)

/-! ### The secondary (RU) sub-pipeline
(`_run_ru_pipeline`, main.py lines 237-261) -/

/-- Adapter outcomes of one RU run: the raw `post_text` values of the
translator and reviewer generations (`Res.err` = the call raised). -/
structure RuEnv where
  translateAi : Res String
  reviewAi : Res String
deriving DecidableEq, Repr

/-- `translator.execute` (translator.py lines 69-100): a raised call, an
empty result or a stripped length below 30 yields `None`. -/
def translator (res : Res String) : Option String :=
  match res with
  | .err => none
  | .ok s => if s = "" ∨ (pyStrip s).length < 30 then none else some s

/-- `translation_reviewer.execute` (translation_reviewer.py lines 50-81):
a raised call, an empty result or a stripped length below 30 falls back to
the un-reviewed input text. -/
def translation_reviewer (res : Res String) (ru_post_text : String) : String :=
  match res with
  | .err => ru_post_text
  | .ok polished =>
      if polished = "" ∨ (pyStrip polished).length < 30 then ru_post_text
      else polished

/-- The EN→RU signature swap of `post_to_ru._swap_signature`. -/
def enSigLink : String :=
  "<a href=\"https://t.me/aiflowdaily\"><b>AI Flow Daily</b></a>"
def ruSigLink : String :=
  "<a href=\"https://t.me/aiflowdaily_ru\"><b>AI Flow Daily</b></a>"
def swap_signature (t : String) : String := t.replace enSigLink ruSigLink

/-- `_run_ru_pipeline` (main.py lines 237-261): translate the approved
post's text (abort on `None`), review (with its internal fallback), then
post to the RU channel.  The returned list is the
`(post text, creative_type, creative_url)` arguments handed to
`post_to_ru.execute`, signature already swapped. -/
def run_ru_pipeline (env : RuEnv) (ad : ArticleData) :
    List (String × CreativeType × String) :=
  match translator env.translateAi with
  | none => []
  | some ru =>
      let reviewed := translation_reviewer env.reviewAi ru
      [(swap_signature reviewed, ad.creative_type, ad.creative_url)]

/-! ### Helper lemmas about the approval gate -/

/-- A landed status write is visible at the page id. -/
theorem lookupId_update_page_status (store : List (String × Record))
    (pid : String) (status : Status) (u : String) (r : Record)
    (hr : lookupId store pid = some r) :
    lookupId (update_page_status true store pid status u) pid =
      some { r with status := status,
                    post_url := if u = "" then r.post_url else u } := by
  simp [update_page_status, lookupId_updateRecord, hr]

/-- A failed status write (caught exception) leaves the store unchanged. -/
theorem update_page_status_err (store : List (String × Record))
    (pid : String) (status : Status) (u : String) :
    update_page_status false store pid status u = store := rfl

/-- After a successful approve whose status write lands, the record's
status is `Posted`. -/
theorem statusAt_applyDecision_approve (env : DecideEnv) (st : State)
    (pid : String) (ad : ArticleData) (r : Record) (u : String)
    (hr : lookupId st.store pid = some r)
    (hp : env.publishResult = some u)
    (hu : env.updateOk = true) :
    statusAt (applyDecision env st .approve pid ad).state pid = some .posted := by
  simp [applyDecision, hp, hu, statusAt, lookupId_update_page_status _ _ _ _ _ hr]

theorem statusAt_applyDecision_decline (env : DecideEnv) (st : State)
    (pid : String) (ad : ArticleData) (r : Record)
    (hr : lookupId st.store pid = some r)
    (hu : env.updateOk = true) :
    statusAt (applyDecision env st .decline pid ad).state pid = some .declined := by
  simp [applyDecision, hu, statusAt, lookupId_update_page_status _ _ _ _ _ hr]

/-- Both terminal transitions leave no pending entry for the page id. -/
theorem pending_applyDecision (env : DecideEnv) (st : State) (action : Action)
    (pid : String) (ad : ArticleData) :
    lookupId (applyDecision env st action pid ad).state.pending pid = none ∨
      (applyDecision env st action pid ad).state = st := by
  cases action with
  | approve =>
      cases hp : env.publishResult with
      | none => exact Or.inr (by simp [applyDecision, hp])
      | some u => exact Or.inl (by simp [applyDecision, hp, lookupId_removeKey])
  | decline => exact Or.inl (by simp [applyDecision, lookupId_removeKey])

/-- A decision request that reaches the gate with no process-local entry and
an already-terminal durable record is a pure notification: nothing changes,
nothing is published, nothing is spawned. -/
theorem handle_approval_terminal (env : DecideEnv) (st : State)
    (action : Action) (pid : String) (r : Record)
    (hm : lookupId st.pending pid = none)
    (hf : env.fetchOk = true)
    (hr : lookupId st.store pid = some r)
    (ht : r.status.isTerminal = true) :
    handle_approval env st action pid =
      ⟨st, some (alreadyMsg r), [], []⟩ := by
  simp [handle_approval, hm, hf, hr, ht]

/-! ### Claim theorems -/

/-- C9: for every inbound decision attempt (a parsed approve/decline event),
the reviewer's message is edited to a definitive textual outcome — a success
message, an already-terminal notice, or an explicit error message — on every
path of `handle_approval`; the reviewer is never left with silence. -/
theorem decision_always_answered (env : DecideEnv) (st : State)
    (action : Action) (pid : String) :
    (handle_approval env st action pid).message.isSome = true := by
  have hApply : ∀ ad, (applyDecision env st action pid ad).message.isSome = true := by
    intro ad
    cases action <;> cases hp : env.publishResult <;> simp [applyDecision, hp]
  cases hm : lookupId st.pending pid with
  | some ad => simpa [handle_approval, hm] using hApply ad
  | none =>
      cases hf : env.fetchOk with
      | false => simp [handle_approval, hm, hf]
      | true =>
          cases hr : lookupId st.store pid with
          | none => simp [handle_approval, hm, hf, hr]
          | some r =>
              cases ht : r.status.isTerminal with
              | true => simp [handle_approval, hm, hf, hr, ht]
              | false =>
                  simpa [handle_approval, hm, hf, hr, ht] using
                    hApply (recoverArticleData pid r)

/-- C6: the creative classification `handle_approval` reinfers for a
reconstructed durable record is exactly the deterministic rule of the
specification applied to the stored creative reference: a reference ending
in a known video file extension ⇒ video, a non-empty reference not equal to
the `"none"` sentinel ⇒ image, otherwise ⇒ none. -/
theorem recovery_creative_rule (pid : String) (r : Record) :
    (recoverArticleData pid r).creative_type = specCreativeRule (storedCreative r) := by
  show inferCreativeType (storedCreative r) = specCreativeRule (storedCreative r)
  generalize storedCreative r = c
  by_cases hc : c = ""
  · subst hc
    have hext : hasVideoExt "" = false := by decide
    simp [inferCreativeType, specCreativeRule, hext]
  · simp [inferCreativeType, specCreativeRule, hc]

/-- C3: when the exact-URL layer of the duplicate filter passes, any failure
of the semantic-comparison layer — a raised durable-store recent-window
query or a raised generation call — lets the article proceed to the next
stage (fail-open); the article is never dropped by a layer-2 fault. -/
theorem dedup_fails_open (env : DedupEnv) (store : List (String × Record))
    (a : Article)
    (hurl : url_exists env.urlQueryOk store a.article_url = false)
    (hfail : env.recentRes = .err ∨ env.aiRes = .err) :
    duplicate_control env store a = some a := by
  rcases hfail with h | h
  · simp [duplicate_control, hurl, h, get_recent_articles]
  · cases hr : env.recentRes with
    | err => simp [duplicate_control, hurl, hr, get_recent_articles]
    | ok l =>
        cases l with
        | nil => simp [duplicate_control, hurl, hr, get_recent_articles]
        | cons x xs => simp [duplicate_control, hurl, hr, get_recent_articles, h]

theorem dedup_fails_open_witness :
    duplicate_control ⟨true, Res.ok [⟨"t", "u", "p"⟩], Res.err⟩ []
        ⟨"text", "title", "https://x.test/a", "d", "", "rss", [], []⟩ =
      some ⟨"text", "title", "https://x.test/a", "d", "", "rss", [], []⟩ :=
  dedup_fails_open _ _ _ (by decide) (Or.inr rfl)

/-- C8: in the RU sub-pipeline, a failed rewrite (a raised translator call
or an empty translator result) aborts the sub-pipeline with no secondary
post, while a failed quality-review publishes the un-reviewed rewritten
text instead of aborting. -/
theorem ru_pipeline_fallbacks (env : RuEnv) (ad : ArticleData) :
    ((env.translateAi = .err ∨ env.translateAi = .ok "") →
        run_ru_pipeline env ad = [])
    ∧ (∀ s, translator env.translateAi = some s → env.reviewAi = .err →
        run_ru_pipeline env ad =
          [(swap_signature s, ad.creative_type, ad.creative_url)]) := by
  constructor
  · rintro (h | h) <;> simp [run_ru_pipeline, translator, h]
  · intro s hs hr
    simp [run_ru_pipeline, hs, translation_reviewer, hr]

theorem ru_pipeline_fallbacks_witness :
    run_ru_pipeline ⟨Res.err, Res.ok "x"⟩ ⟨"post", .none, "none", "T", some "id1"⟩ = []
    ∧ run_ru_pipeline ⟨Res.ok "abcdefghijklmnopqrstuvwxyz0123456789", Res.err⟩
        ⟨"post", .none, "none", "T", some "id1"⟩ =
      [(swap_signature "abcdefghijklmnopqrstuvwxyz0123456789",
        CreativeType.none, "none")] :=
  ⟨(ru_pipeline_fallbacks _ _).1 (Or.inl rfl),
   (ru_pipeline_fallbacks _ _).2 _ (by decide) rfl⟩

/-! Concrete fixtures for the witnesses. -/

def recPending : Record :=
  ⟨"T", "https://x.test/a", "body text", "why", some "https://img.example/p.jpg",
   .sentForApproval, ""⟩

def recPosted : Record := { recPending with status := .posted }

def adPending : ArticleData :=
  ⟨"body text", .image, "https://img.example/p.jpg", "T", some "id1"⟩

/-- C4: an approve decision whose primary-channel publish fails changes
nothing — the durable record keeps its status (still pending approval), the
pending entry is not removed, no second publish attempt is made — and the
caller gets the explicit error message.  Both the in-memory path and the
durable-recovery path are covered. -/
theorem publish_failure_is_safe (env : DecideEnv) (st : State) (pid : String)
    (hp : env.publishResult = none) :
    (∀ ad, lookupId st.pending pid = some ad →
       handle_approval env st .approve pid = ⟨st, some publishErrMsg, [ad], []⟩)
    ∧ (∀ r, lookupId st.pending pid = none → env.fetchOk = true →
        lookupId st.store pid = some r → r.status = .sentForApproval →
       handle_approval env st .approve pid =
         ⟨st, some publishErrMsg, [recoverArticleData pid r], []⟩) := by
  constructor
  · intro ad hm
    simp [handle_approval, hm, applyDecision, hp]
  · intro r hm hf hr hs
    simp [handle_approval, hm, hf, hr, hs, Status.isTerminal, applyDecision, hp]

theorem publish_failure_is_safe_witness :
    handle_approval ⟨true, none, true⟩ ⟨[("id1", recPending)], [("id1", adPending)]⟩
        .approve "id1" =
      ⟨⟨[("id1", recPending)], [("id1", adPending)]⟩,
       some publishErrMsg, [adPending], []⟩
    ∧ handle_approval ⟨true, none, true⟩ ⟨[("id1", recPending)], []⟩ .approve "id1" =
      ⟨⟨[("id1", recPending)], []⟩,
       some publishErrMsg, [recoverArticleData "id1" recPending], []⟩ :=
  ⟨(publish_failure_is_safe _ _ _ rfl).1 adPending (by decide),
   (publish_failure_is_safe _ _ _ rfl).2 recPending rfl rfl (by decide) rfl⟩

/-- C2: with the process-local entry absent (for example after a process
restart), `handle_approval` resolves the decision from the durable record
alone: when the fetch, the publish and the status write succeed, approve
publishes exactly the reconstructed pending-decision context and marks the
record `Posted` with the returned post URL, and decline marks the record
`Declined`.  The result is stated as a full equality, so the resolution is
completely determined by the durable record. -/
theorem stateless_recovery (env : DecideEnv) (st : State) (pid : String)
    (r : Record)
    (hm : lookupId st.pending pid = none)
    (hf : env.fetchOk = true)
    (hu : env.updateOk = true)
    (hr : lookupId st.store pid = some r)
    (hs : r.status = .sentForApproval) :
    (∀ u, env.publishResult = some u →
       handle_approval env st .approve pid =
         ⟨⟨update_page_status true st.store pid .posted u,
           removeKey st.pending pid⟩,
          some (approvedMsg r.title),
          [recoverArticleData pid r], [recoverArticleData pid r]⟩)
    ∧ (handle_approval env st .decline pid =
         ⟨⟨update_page_status true st.store pid .declined "",
           removeKey st.pending pid⟩,
          some (declinedMsg r.title), [], []⟩) := by
  constructor
  · intro u hp
    simp [handle_approval, hm, hf, hu, hr, hs, Status.isTerminal, applyDecision,
      hp, recoverArticleData]
  · simp [handle_approval, hm, hf, hu, hr, hs, Status.isTerminal, applyDecision,
      recoverArticleData]

theorem stateless_recovery_witness :
    handle_approval ⟨true, some "https://t.me/ch/5", true⟩
        ⟨[("id1", recPending)], []⟩ .approve "id1" =
      ⟨⟨update_page_status true [("id1", recPending)] "id1" .posted
          "https://t.me/ch/5",
        removeKey [] "id1"⟩,
       some (approvedMsg recPending.title),
       [recoverArticleData "id1" recPending], [recoverArticleData "id1" recPending]⟩
    ∧ handle_approval ⟨true, some "https://t.me/ch/5", true⟩
        ⟨[("id1", recPending)], []⟩ .decline "id1" =
      ⟨⟨update_page_status true [("id1", recPending)] "id1" .declined "",
        removeKey [] "id1"⟩,
       some (declinedMsg recPending.title), [], []⟩ :=
  ⟨(stateless_recovery ⟨true, some "https://t.me/ch/5", true⟩
      ⟨[("id1", recPending)], []⟩
      "id1" recPending rfl rfl rfl (by decide) rfl).1 _ rfl,
   (stateless_recovery ⟨true, some "https://t.me/ch/5", true⟩
      ⟨[("id1", recPending)], []⟩
      "id1" recPending rfl rfl rfl (by decide) rfl).2⟩

/-- One acted decision followed by a repeat of the same decision: the first
call leaves the record terminal, the repeat reports the terminal state and
publishes nothing. -/
theorem applyDecision_round (env : DecideEnv) (st : State) (pid : String)
    (r : Record) (ad : ArticleData) (action : Action)
    (hr : lookupId st.store pid = some r)
    (hf : env.fetchOk = true)
    (hp : env.publishResult.isSome = true)
    (hu : env.updateOk = true) :
    ∃ s1, statusAt (applyDecision env st action pid ad).state pid = some s1
      ∧ s1.isTerminal = true
      ∧ statusAt (handle_approval env (applyDecision env st action pid ad).state
          action pid).state pid = some s1
      ∧ (applyDecision env st action pid ad).publishes.length
        + (handle_approval env (applyDecision env st action pid ad).state
            action pid).publishes.length ≤ 1 := by
  obtain ⟨u, hpu⟩ := Option.isSome_iff_exists.mp hp
  cases action with
  | approve =>
      have hA : applyDecision env st .approve pid ad =
          ⟨⟨update_page_status true st.store pid .posted u,
            removeKey st.pending pid⟩,
           some (approvedMsg ad.title), [ad], [ad]⟩ := by
        simp [applyDecision, hpu, hu]
      have hr1 : lookupId (update_page_status true st.store pid .posted u) pid =
          some { r with status := .posted,
                        post_url := if u = "" then r.post_url else u } :=
        lookupId_update_page_status _ _ _ _ _ hr
      have h2 := handle_approval_terminal env
        ⟨update_page_status true st.store pid .posted u, removeKey st.pending pid⟩
        .approve pid _ (lookupId_removeKey _ _) hf hr1 rfl
      refine ⟨.posted, ?_, rfl, ?_, ?_⟩
      · simp [hA, statusAt, hr1]
      · simp [hA, h2, statusAt, hr1]
      · simp [hA, h2]
  | decline =>
      have hA : applyDecision env st .decline pid ad =
          ⟨⟨update_page_status true st.store pid .declined "",
            removeKey st.pending pid⟩,
           some (declinedMsg ad.title), [], []⟩ := by
        simp [applyDecision, hu]
      have hr1 : lookupId (update_page_status true st.store pid .declined "") pid =
          some { r with status := .declined,
                        post_url := if "" = "" then r.post_url else "" } :=
        lookupId_update_page_status _ _ _ _ _ hr
      have h2 := handle_approval_terminal env
        ⟨update_page_status true st.store pid .declined "",
         removeKey st.pending pid⟩
        .decline pid _ (lookupId_removeKey _ _) hf hr1 rfl
      refine ⟨.declined, ?_, rfl, ?_, ?_⟩
      · simp [hA, statusAt, hr1]
      · simp [hA, h2, statusAt, hr1]
      · simp [hA, h2]

/-- C1 (as amended): (i) for any reachable state holding a durable record
for the correlation id, and provided the durable status write performed by
the first decision lands (`updateOk = true` — see
`decide_idempotent_cex` for what the code does when it does not), calling
the decision handler twice with the same outcome leaves the record in the
same terminal state after both calls and performs the primary-channel
publish call at most once over the two calls;
(ii) a decision request against a record whose status is already terminal
(`Posted` or `Declined`) is a pure no-op notification — the state is
unchanged, nothing is published, and the reviewer sees the already-terminal
notice, not an error. -/
theorem decide_idempotent (env : DecideEnv) (st : State) (pid : String)
    (r : Record) (action : Action)
    (hinv : StateInv st)
    (hr : lookupId st.store pid = some r)
    (hf : env.fetchOk = true)
    (hp : env.publishResult.isSome = true)
    (hu : env.updateOk = true) :
    (∃ s1, statusAt (handle_approval env st action pid).state pid = some s1
       ∧ s1.isTerminal = true
       ∧ statusAt (handle_approval env (handle_approval env st action pid).state
           action pid).state pid = some s1
       ∧ (handle_approval env st action pid).publishes.length
         + (handle_approval env (handle_approval env st action pid).state
             action pid).publishes.length ≤ 1)
    ∧ (r.status.isTerminal = true →
        handle_approval env st action pid = ⟨st, some (alreadyMsg r), [], []⟩) := by
  constructor
  · cases hm : lookupId st.pending pid with
    | some ad =>
        have hfirst : handle_approval env st action pid =
            applyDecision env st action pid ad := by
          simp [handle_approval, hm]
        rw [hfirst]
        exact applyDecision_round env st pid r ad action hr hf hp hu
    | none =>
        cases ht : r.status.isTerminal with
        | false =>
            have hfirst : handle_approval env st action pid =
                applyDecision env st action pid (recoverArticleData pid r) := by
              simp [handle_approval, hm, hf, hr, ht]
            rw [hfirst]
            exact applyDecision_round env st pid r _ action hr hf hp hu
        | true =>
            have h1 := handle_approval_terminal env st action pid r hm hf hr ht
            refine ⟨r.status, ?_, ht, ?_, ?_⟩
            · simp [h1, statusAt, hr]
            · simp [h1, statusAt, hr]
            · simp [h1]
  · intro ht
    have hm : lookupId st.pending pid = none := by
      cases hmm : lookupId st.pending pid with
      | none => rfl
      | some ad =>
          have := hinv pid ad hmm r hr
          rw [ht] at this
          exact absurd this (by simp)
    exact handle_approval_terminal env st action pid r hm hf hr ht

theorem decide_idempotent_witness :
    (∃ s1,
       statusAt (handle_approval ⟨true, some "https://t.me/ch/5", true⟩
         ⟨[("id1", recPosted)], []⟩ .approve "id1").state "id1" = some s1
       ∧ s1.isTerminal = true
       ∧ statusAt (handle_approval ⟨true, some "https://t.me/ch/5", true⟩
           (handle_approval ⟨true, some "https://t.me/ch/5", true⟩
             ⟨[("id1", recPosted)], []⟩ .approve "id1").state
           .approve "id1").state "id1" = some s1
       ∧ (handle_approval ⟨true, some "https://t.me/ch/5", true⟩
            ⟨[("id1", recPosted)], []⟩ .approve "id1").publishes.length
         + (handle_approval ⟨true, some "https://t.me/ch/5", true⟩
             (handle_approval ⟨true, some "https://t.me/ch/5", true⟩
               ⟨[("id1", recPosted)], []⟩ .approve "id1").state
             .approve "id1").publishes.length ≤ 1)
    ∧ (recPosted.status.isTerminal = true →
        handle_approval ⟨true, some "https://t.me/ch/5", true⟩
          ⟨[("id1", recPosted)], []⟩ .approve "id1" =
        ⟨⟨[("id1", recPosted)], []⟩, some (alreadyMsg recPosted), [], []⟩) :=
  decide_idempotent ⟨true, some "https://t.me/ch/5", true⟩
    ⟨[("id1", recPosted)], []⟩
    "id1" recPosted .approve
    (fun pid ad h => by simp [lookupId] at h)
    (by decide) rfl rfl rfl

/-- Counterexample to C1 as originally stated: with the record pending, the
fetch and the publish working, but the `mark_posted` Notion write raising
(caught inside `update_page_status`, its `False` return ignored by
`main.py`), the first approve publishes, reports success and deletes the
pending entry while the record stays `Sent for approval` — not terminal —
and the second approve recovers the still-pending record and publishes
again: two primary-channel publish calls for the same correlation id and
outcome. -/
theorem decide_idempotent_cex :
    ((handle_approval ⟨true, some "https://t.me/ch/1", false⟩
        ⟨[("id1", recPending)], [("id1", adPending)]⟩ .approve "id1").publishes.length
      + (handle_approval ⟨true, some "https://t.me/ch/1", false⟩
          (handle_approval ⟨true, some "https://t.me/ch/1", false⟩
            ⟨[("id1", recPending)], [("id1", adPending)]⟩ .approve "id1").state
          .approve "id1").publishes.length = 2)
    ∧ statusAt (handle_approval ⟨true, some "https://t.me/ch/1", false⟩
        ⟨[("id1", recPending)], [("id1", adPending)]⟩ .approve "id1").state "id1" =
      some .sentForApproval
    ∧ (handle_approval ⟨true, some "https://t.me/ch/1", false⟩
        ⟨[("id1", recPending)], [("id1", adPending)]⟩ .approve "id1").message =
      some (approvedMsg "T") := by
  refine ⟨?_, ?_, ?_⟩ <;> decide

/-- The summarizer only overwrites title and text; the URL survives. -/
theorem summarizer_url {res : Res SummOut} {a a1 : Article}
    (h : summarizer res a = some a1) : a1.article_url = a.article_url := by
  cases res with
  | err => exact absurd h (by simp [summarizer])
  | ok out =>
      by_cases hs : out.article_title = "SKIP" ∨ out.article_text = "SKIP"
      · exact absurd h (by simp [summarizer, hs])
      · simp only [summarizer, if_neg hs, Option.some.injEq] at h
        rw [← h]

/-- The relevance checker only adds the justification; the URL survives. -/
theorem relevance_checker_url {res : Res RelOut} {a a1 : Article}
    (h : relevance_checker res a = some a1) : a1.article_url = a.article_url := by
  cases res with
  | err => exact absurd h (by simp [relevance_checker])
  | ok out =>
      cases hrel : out.is_relevant with
      | false => exact absurd h (by simp [relevance_checker, hrel])
      | true =>
          simp only [relevance_checker, hrel, if_true, Option.some.injEq] at h
          rw [← h]

/-- C5 (as amended): whenever the URL-existence check actually reports the
article's URL as already present — at ingestion, or at the duplicate-filter
stage's first layer — the article goes no further: the RSS entry is dropped
at normalization, and `process_article` drops the article before
persist/preview, creating no record, submitting nothing for approval and
leaving the state untouched.  (Unconditionally "never re-submits" is false
of the code: both checks fail open when the Notion query raises — see
`no_url_resubmission_cex`.) -/
theorem no_url_resubmission :
    (∀ (env : RssEnv) (store : List (String × Record)) (entry : RssEntry)
        (src : String), url_exists env.urlQueryOk store entry.link = true →
       normalize_rss_article env store entry src = none)
    ∧ (∀ (env : StageEnv) (st : State) (a : Article),
        url_exists env.dedupEnv.urlQueryOk st.store a.article_url = true →
       process_article env st a = (st, ⟨[], []⟩)) := by
  constructor
  · intro env store entry src h
    by_cases hl : entry.link = "" <;> simp [normalize_rss_article, hl, h]
  · intro env st a h
    cases hsm : summarizer env.summRes a with
    | none => simp [process_article, hsm]
    | some a1 =>
        cases hrl : relevance_checker env.relRes a1 with
        | none => simp [process_article, hsm, hrl]
        | some a2 =>
            have hu2 : a2.article_url = a.article_url := by
              rw [relevance_checker_url hrl, summarizer_url hsm]
            have hd : duplicate_control env.dedupEnv st.store a2 = none := by
              simp [duplicate_control, hu2, h]
            simp [process_article, hsm, hrl, hd]

theorem no_url_resubmission_witness :
    normalize_rss_article ⟨true, some ⟨"full", [], []⟩, none, "2026-01-01"⟩
        [("id1", recPending)] ⟨"https://x.test/a", "", ""⟩ "techcrunch" = none
    ∧ process_article
        ⟨.ok ⟨"T", "body"⟩, .ok ⟨true, "why"⟩, ⟨true, .ok [], .err⟩, .err,
         id, ⟨.none, "none"⟩, some "id2", true⟩
        ⟨[("id1", recPending)], []⟩
        ⟨"text", "title", "https://x.test/a", "d", "", "rss", [], []⟩ =
      (⟨[("id1", recPending)], []⟩, ⟨[], []⟩) :=
  ⟨no_url_resubmission.1 _ _ _ _ (by decide),
   no_url_resubmission.2 _ _ _ (by decide)⟩

/-- Counterexample to C5 as originally stated: the store holds the URL, yet
when the Notion existence query raises at ingestion (`url_exists` catches
and returns `False`, fail-open) the entry is normalized anyway, and when
the same query raises again at the duplicate filter — whose semantic layer
also fails open by design — `process_article` carries the already-present
URL all the way to persist and preview: the article is re-submitted for
approval. -/
theorem no_url_resubmission_cex :
    url_exists true [("id1", recPending)] "https://x.test/a" = true
    ∧ normalize_rss_article ⟨false, some ⟨"full", [], []⟩, none, "2026-01-01"⟩
        [("id1", recPending)] ⟨"https://x.test/a", "", ""⟩ "techcrunch" =
      some ⟨"full", "", "https://x.test/a", "2026-01-01", "", "techcrunch", [], []⟩
    ∧ (process_article
        ⟨.ok ⟨"T", "body"⟩, .ok ⟨true, "why"⟩, ⟨false, .err, .err⟩,
         .ok "abcdefghijklmnopqrstuvwxyz0123456789abcdefghijklmnopqrstuvwxyz",
         id, ⟨.none, "none"⟩, some "id2", true⟩
        ⟨[("id1", recPending)], []⟩
        ⟨"text", "title", "https://x.test/a", "d", "", "rss", [], []⟩).2.submitted
      = ["id2"] := by
  refine ⟨?_, ?_, ?_⟩ <;> decide

/-- C7: the per-article `try/except` of `run_pipeline` isolates faults:
the loop's outcomes decompose per article, every article of the cycle gets
exactly one recorded outcome, and an article whose processing raises
contributes its caught fault while the remaining articles are still
processed — a single article's fault never aborts the cycle. -/
theorem per_article_fault_isolation :
    (∀ (step : State → Article → State × StepOutcome) (st : State)
        (l1 l2 : List Article),
       (runArticles step st (l1 ++ l2)).2 =
         (runArticles step st l1).2 ++
           (runArticles step (runArticles step st l1).1 l2).2)
    ∧ (∀ (step : State → Article → State × StepOutcome) (st : State)
        (articles : List Article),
       ((runArticles step st articles).2).length = articles.length)
    ∧ (∀ (step : State → Article → State × StepOutcome) (st : State)
        (a : Article) (rest : List Article) (st1 : State) (m : String),
       step st a = (st1, .raised m) →
       (runArticles step st (a :: rest)).2 =
         .raised m :: (runArticles step st1 rest).2) := by
  refine ⟨?_, ?_, ?_⟩
  · intro step st l1 l2
    induction l1 generalizing st with
    | nil => simp [runArticles]
    | cons x xs ih => simp [runArticles, ih]
  · intro step st articles
    induction articles generalizing st with
    | nil => rfl
    | cons x xs ih => simp [runArticles, ih]
  · intro step st a rest st1 m h
    simp [runArticles, h]

def artA : Article := ⟨"text a", "title a", "https://x.test/a", "d", "", "rss", [], []⟩
def artB : Article := ⟨"text b", "title b", "https://x.test/b", "d", "", "rss", [], []⟩

theorem per_article_fault_isolation_witness :
    (runArticles (fun st _ => (st, .raised "boom")) ⟨[], []⟩ [artA, artB]).2 =
      .raised "boom" ::
        (runArticles (fun st _ => (st, .raised "boom")) ⟨[], []⟩ [artB]).2 :=
  per_article_fault_isolation.2.2 _ _ artA [artB] _ _ rfl

/-! The reachability invariant `StateInv` (a pending entry always refers to
a non-terminal record) is preserved by both triggers that mutate the shared
state, so the hypothesis of `decide_idempotent` holds in every reachable
state. -/

theorem lookupId_updateRecord_ne {α : Type} (l : List (String × α))
    (pid k : String) (f : α → α) (h : k ≠ pid) :
    lookupId (updateRecord l pid f) k = lookupId l k := by
  induction l with
  | nil => rfl
  | cons kv rest ih =>
      obtain ⟨k', v⟩ := kv
      by_cases hk : k' = pid
      · subst hk
        simp [updateRecord, lookupId, Ne.symm h, ih]
      · by_cases hk2 : k' = k <;> simp [updateRecord, lookupId, hk, hk2, h, ih]

theorem applyDecision_preserves_inv (env : DecideEnv) (st : State)
    (action : Action) (pid : String) (ad : ArticleData) (hinv : StateInv st) :
    StateInv (applyDecision env st action pid ad).state := by
  have hterm : ∀ ok status u, StateInv
      (⟨update_page_status ok st.store pid status u,
        removeKey st.pending pid⟩ : State) := by
    intro ok status u pid' ad' h' r' hr'
    by_cases hk : pid' = pid
    · subst hk
      rw [lookupId_removeKey] at h'
      exact absurd h' (by simp)
    · rw [lookupId_removeKey_ne _ _ _ hk] at h'
      cases ok with
      | false => exact hinv pid' ad' h' r' hr'
      | true =>
          rw [show update_page_status true st.store pid status u =
                updateRecord st.store pid _ from rfl,
              lookupId_updateRecord_ne _ _ _ _ hk] at hr'
          exact hinv pid' ad' h' r' hr'
  cases action with
  | approve =>
      cases hp : env.publishResult with
      | none => simpa [applyDecision, hp] using hinv
      | some u => simpa [applyDecision, hp] using hterm env.updateOk .posted u
  | decline => simpa [applyDecision] using hterm env.updateOk .declined ""

theorem handle_approval_preserves_inv (env : DecideEnv) (st : State)
    (action : Action) (pid : String) (hinv : StateInv st) :
    StateInv (handle_approval env st action pid).state := by
  cases hm : lookupId st.pending pid with
  | some ad =>
      simpa [handle_approval, hm] using
        applyDecision_preserves_inv env st action pid ad hinv
  | none =>
      cases hf : env.fetchOk with
      | false => simpa [handle_approval, hm, hf] using hinv
      | true =>
          cases hr : lookupId st.store pid with
          | none => simpa [handle_approval, hm, hf, hr] using hinv
          | some r =>
              cases ht : r.status.isTerminal with
              | true => simpa [handle_approval, hm, hf, hr, ht] using hinv
              | false =>
                  simpa [handle_approval, hm, hf, hr, ht] using
                    applyDecision_preserves_inv env st action pid
                      (recoverArticleData pid r) hinv

theorem process_article_preserves_inv (env : StageEnv) (st : State)
    (a : Article) (hinv : StateInv st) :
    StateInv (process_article env st a).1 := by
  have hfresh : ∀ (pid : String) (r : Record) (ad : ArticleData),
      r.status = .sentForApproval →
      StateInv (⟨(pid, r) :: st.store, (pid, ad) :: st.pending⟩ : State) := by
    intro pid r ad hs pid' ad' h' r' hr'
    by_cases hk : pid = pid'
    · simp only [lookupId, hk, if_pos rfl] at hr' h'
      cases hr'
      simp [hs, Status.isTerminal]
    · simp only [lookupId, if_neg hk] at hr' h'
      exact hinv pid' ad' h' r' hr'
  have hnopreview : ∀ (pid : String) (r : Record),
      r.status = .sentForApproval →
      StateInv (⟨(pid, r) :: st.store, st.pending⟩ : State) := by
    intro pid r hs pid' ad' h' r' hr'
    by_cases hk : pid = pid'
    · simp only [lookupId, hk, if_pos rfl] at hr'
      cases hr'
      simp [hs, Status.isTerminal]
    · simp only [lookupId, if_neg hk] at hr'
      exact hinv pid' ad' h' r' hr'
  cases hsm : summarizer env.summRes a with
  | none => simpa [process_article, hsm] using hinv
  | some a1 =>
  cases hrl : relevance_checker env.relRes a1 with
  | none => simpa [process_article, hsm, hrl] using hinv
  | some a2 =>
  cases hd : duplicate_control env.dedupEnv st.store a2 with
  | none => simpa [process_article, hsm, hrl, hd] using hinv
  | some a3 =>
  cases hw : post_writer env.writerRes with
  | none => simpa [process_article, hsm, hrl, hd, hw] using hinv
  | some raw =>
  cases hsv : env.savedPageId with
  | none => simpa [process_article, hsm, hrl, hd, hw, hsv] using hinv
  | some pid =>
      cases hpv : env.previewOk with
      | true =>
          simpa [process_article, hsm, hrl, hd, hw, hsv, hpv] using
            hfresh pid _ _ rfl
      | false =>
          simpa [process_article, hsm, hrl, hd, hw, hsv, hpv] using
            hnopreview pid _ rfl

/-! Support for the truncation scenario (C10). -/

/-- A composed post of 2001 identical characters. -/
def longText : String := String.mk (List.replicate 2001 'a')

theorem dropWhile_replicate_a (n : Nat) :
    List.dropWhile isPySpace (List.replicate n 'a') = List.replicate n 'a' := by
  cases n with
  | zero => rfl
  | succ m =>
      simp [List.replicate_succ, List.dropWhile_cons,
        show isPySpace 'a' = false by decide]

theorem toList_longText : longText.toList = List.replicate 2001 'a' := rfl

theorem pyStrip_longText : pyStrip longText = longText := by
  unfold pyStrip
  rw [toList_longText, dropWhile_replicate_a, List.reverse_replicate,
    dropWhile_replicate_a, List.reverse_replicate]
  rfl

theorem longText_length : longText.length = 2001 := by
  show (List.replicate 2001 'a').length = 2001
  exact List.length_replicate 2001 'a'

theorem pyTake_longText_length : (pyTake 2000 longText).length = 2000 := by
  show ((longText.toList.take 2000)).length = 2000
  rw [toList_longText, List.length_take, List.length_replicate]
  rfl

theorem pyTake_ne_longText : pyTake 2000 longText ≠ longText := by
  intro h
  have hlen := congrArg String.length h
  rw [pyTake_longText_length, longText_length] at hlen
  omega

/-- A cycle environment in which every stage passes and the post writer
composes `longText`. -/
def envS : StageEnv :=
  { summRes := .ok ⟨"T", "body"⟩
    relRes := .ok ⟨true, "why"⟩
    dedupEnv := ⟨true, .ok [], .ok ⟨false, "", ""⟩⟩
    writerRes := .ok longText
    fixFn := id
    creativeRes := ⟨.none, "none"⟩
    savedPageId := some "idX"
    previewOk := true }

/-- The record the cycle persists for `longText`. -/
def recX : Record := create_article_page "T" "https://x.test/a" "none" longText "why"

/-- The pending entry the cycle caches for `longText`. -/
def adX : ArticleData := ⟨longText, .none, "none", "T", some "idX"⟩

theorem process_article_longText :
    process_article envS ⟨[], []⟩ artA =
      (⟨[("idX", recX)], [("idX", adX)]⟩, ⟨["idX"], ["idX"]⟩) := by
  have h4 : post_writer (Res.ok longText) = some longText := by
    simp [post_writer, pyStrip_longText, longText_length]
  simp [process_article, summarizer, relevance_checker, duplicate_control,
    url_exists, get_recent_articles, h4, envS, artA, recX, adX,
    pyStrip_longText]

/-- C10: `create_article_page` persists only the first 2000 characters of
the composed post text and of the relevance justification; consequently,
for a 2001-character post the preview (the cached pending entry) shows the
full text while an approve resolved through the durable-recovery path
publishes its 2000-character truncation — a text different from the
preview. -/
theorem preview_truncation_divergence :
    (∀ t u c p w, (create_article_page t u c p w).post_text = pyTake 2000 p
       ∧ (create_article_page t u c p w).why_relevant = pyTake 2000 w)
    ∧ ((lookupId (process_article envS ⟨[], []⟩ artA).1.pending "idX").map
         ArticleData.post_text = some longText)
    ∧ ((handle_approval ⟨true, some "https://t.me/ch/9", true⟩
          ⟨(process_article envS ⟨[], []⟩ artA).1.store, []⟩
          .approve "idX").publishes.map ArticleData.post_text =
        [pyTake 2000 longText])
    ∧ pyTake 2000 longText ≠ longText := by
  refine ⟨fun t u c p w => ⟨rfl, rfl⟩, ?_, ?_, pyTake_ne_longText⟩
  · rw [process_article_longText]
    rfl
  · rw [process_article_longText]
    show (handle_approval ⟨true, some "https://t.me/ch/9", true⟩
        ⟨[("idX", recX)], []⟩ .approve "idX").publishes.map
        ArticleData.post_text = [pyTake 2000 longText]
    simp [handle_approval, lookupId, applyDecision, recX,
      create_article_page, Status.isTerminal, recoverArticleData]

end AiFlow
